import Mathlib

/-!
# Verification of `src/convert/doc_containers.rs` (oxidoc)

A shallow embedding of the documentation-item store: the `NewDocTemp_`
record (DocItem), its `DocInnerData` tagged payload, the `DocType`
classification, filename/path derivation, subitem rendering, and the
`save` persistence routine.

Modelling conventions:
* Filesystem paths (`PathBuf`) are lists of path components.
* A Rust `panic!`/`unwrap` failure is modelled by `Option.none`.
* External collaborator types (`Attributes`, the per-kind payloads built
  by the parser layer, `CrateInfo`) are opaque to this core; they are
  modelled as wrappers around an uninterpreted blob of data so that
  equality and serialization are non-trivial.
* The `links` field is a `HashMap<DocType, Vec<DocLink>>` in the source;
  it is modelled as the association list of its entries (which is also
  how it is serialized: a length followed by the entries).
-/

namespace Oxidoc

/-- Modelled from the spec: `Attributes` (module `document`, not in src/) is an
"opaque attribute bag, passed through unchanged"; represented as an
uninterpreted data blob. -/
structure Attributes where
  data : List Nat
  deriving DecidableEq

/-- Modelled from the spec: `ModPath` (module `document`, not in src/) is an
"ordered sequence of path segments identifying the item's position in the
module hierarchy". -/
structure ModPath where
  segments : List String
  deriving DecidableEq

/-- Modelled from the spec: the `Display` impl of `ModPath` renders the
segments joined by `::` (spec section 6 writes paths as `a::b`). -/
def ModPath.display (p : ModPath) : String :=
  String.intercalate "::" p.segments

/-- Modelled from the spec: opaque per-kind payload "built by the external
parser layer" (module `convert::wrappers`, not in src/). -/
structure Function where
  data : List Nat
  deriving DecidableEq

/-- Modelled from the spec: opaque per-kind payload built by the external
parser layer. -/
structure Module where
  data : List Nat
  deriving DecidableEq

/-- Modelled from the spec: opaque per-kind payload built by the external
parser layer. -/
structure Enum where
  data : List Nat
  deriving DecidableEq

/-- Modelled from the spec: opaque per-kind payload built by the external
parser layer. -/
structure Struct where
  data : List Nat
  deriving DecidableEq

/-- Modelled from the spec: opaque per-kind payload built by the external
parser layer. -/
structure Constant where
  data : List Nat
  deriving DecidableEq

/-- Modelled from the spec: opaque per-kind payload built by the external
parser layer. -/
structure Trait where
  data : List Nat
  deriving DecidableEq

/-- The sub-tag of a trait item (`convert::wrappers::TraitItemKind`, not in
src/). The four variants used by `get_type` are Const, Method, Type and
Macro; their payloads are external and modelled as opaque blobs. -/
inductive TraitItemKind
  | Const (c : List Nat)
  | Method (m : List Nat)
  | «Type» (t : List Nat)
  | Macro (m : List Nat)
  deriving DecidableEq

/-- Modelled from the spec: the trait-item payload (`convert::wrappers`,
not in src/); the source reads its `node` field (the sub-tag), remaining
fields are opaque. -/
structure TraitItem where
  node : TraitItemKind
  data : List Nat
  deriving DecidableEq

/-- Modelled from the spec: visibility enumeration; `Public` is the one
variant the source distinguishes, the others ("private, restricted" in
spec section 4.5) render as empty. -/
inductive Visibility
  | Public
  | Private
  | Restricted
  deriving DecidableEq

/-- `impl Display for Visibility` (doc_containers.rs lines 30-38):
`Public` renders as "pub", every other state as the empty string. -/
def Visibility.display (v : Visibility) : String :=
  match v with
  | Visibility.Public => "pub"
  | _ => ""

/-- `DocType` (doc_containers.rs lines 166-183): the closed enumeration of
15 item categories. -/
inductive DocType
  | Function
  | Module
  | Enum
  | Variant
  | Struct
  | StructField
  | Const
  | Trait
  | AssocConst
  | TraitItemMethod
  | TraitItemConst
  | TraitItemType
  | TraitItemMacro
  | AssocType
  | Macro
  deriving DecidableEq

/-- `impl Display for DocType` (doc_containers.rs lines 185-206): the fixed
display label of each category. -/
def DocType.display (t : DocType) : String :=
  match t with
  | DocType.Function => "Functions"
  | DocType.Module => "Modules"
  | DocType.Enum => "Enums"
  | DocType.Variant => "Variants"
  | DocType.Struct => "Structs"
  | DocType.StructField => "Struct Fields"
  | DocType.Const => "Constants"
  | DocType.Trait => "Traits"
  | DocType.AssocConst => "Associated Constants"
  | DocType.TraitItemConst => "Trait Constants"
  | DocType.TraitItemMethod => "Trait Methods"
  | DocType.TraitItemType => "Trait Types"
  | DocType.TraitItemMacro => "Trait Macros"
  | DocType.AssocType => "Associated Types"
  | DocType.Macro => "Macros"

/-- `DocLink` (doc_containers.rs lines 159-164): a named reference to a
related item. -/
structure DocLink where
  name : String
  path : ModPath
  deriving DecidableEq

/-- `DocRelatedItems = HashMap<DocType, Vec<DocLink>>` (doc_containers.rs
line 17), modelled as the association list of the map's entries. -/
abbrev DocRelatedItems := List (DocType × List DocLink)

/-- `HashMap::get` on the modelled map: the value of the first entry whose
key equals `t`, if any. -/
def linksGet (m : DocRelatedItems) (t : DocType) : Option (List DocLink) :=
  match m.find? (fun p => p.1 = t) with
  | some p => some p.2
  | none => none

/-- `DocInnerData` (doc_containers.rs lines 209-221): closed tagged union
of the seven document payload kinds. -/
inductive DocInnerData
  | FnDoc (f : Function)
  | ModuleDoc (m : Module)
  | EnumDoc (e : Enum)
  | StructDoc (s : Struct)
  | ConstDoc (c : Constant)
  | TraitDoc (t : Trait)
  | TraitItemDoc (item : TraitItem)
  deriving DecidableEq

/-- `NewDocTemp_` (doc_containers.rs lines 19-28): the DocItem aggregate. -/
structure NewDocTemp_ where
  name : String
  attrs : Attributes
  mod_path : ModPath
  inner_data : DocInnerData
  visibility : Option Visibility
  links : DocRelatedItems
  deriving DecidableEq

/-- `DocInnerData::get_doc_file_prefix` (doc_containers.rs lines 224-234). -/
def DocInnerData.get_doc_file_prefix (d : DocInnerData) : String :=
  match d with
  | DocInnerData.ModuleDoc _ => "mdesc-"
  | DocInnerData.EnumDoc _ => "edesc-"
  | DocInnerData.StructDoc _ => "sdesc-"
  | DocInnerData.ConstDoc _ => "cdesc-"
  | DocInnerData.TraitDoc _ => "tdesc-"
  | DocInnerData.FnDoc _ => ""
  | DocInnerData.TraitItemDoc _ => ""

/-- `NewDocTemp_::get_doc_filename` (doc_containers.rs lines 44-47):
`format!("{}{}.odoc", prefix, self.name)`. -/
def NewDocTemp_.get_doc_filename (self : NewDocTemp_) : String :=
  let pre := self.inner_data.get_doc_file_prefix
  pre ++ self.name ++ ".odoc"

/-- `NewDocTemp_::get_type` (doc_containers.rs lines 49-79). -/
def NewDocTemp_.get_type (self : NewDocTemp_) : DocType :=
  match self.inner_data with
  | DocInnerData.FnDoc _ => DocType.Function
  | DocInnerData.ModuleDoc _ => DocType.Module
  | DocInnerData.EnumDoc _ => DocType.Enum
  | DocInnerData.StructDoc _ => DocType.Struct
  | DocInnerData.ConstDoc _ => DocType.Const
  | DocInnerData.TraitDoc _ => DocType.Trait
  | DocInnerData.TraitItemDoc item =>
    match item.node with
    | TraitItemKind.Const _ => DocType.TraitItemConst
    | TraitItemKind.Method _ => DocType.TraitItemMethod
    | TraitItemKind.«Type» _ => DocType.TraitItemType
    | TraitItemKind.Macro _ => DocType.TraitItemMacro

/-- The `categories` table of `NewDocTemp_::subitems` (doc_containers.rs
lines 83-112), factored into its own definition. -/
def NewDocTemp_.subitem_categories (self : NewDocTemp_) : List DocType :=
  match self.inner_data with
  | DocInnerData.ModuleDoc _ =>
    [DocType.Function,
     DocType.Module,
     DocType.Enum,
     DocType.Struct,
     DocType.Trait,
     DocType.Const]
  | DocInnerData.TraitDoc _ =>
    [DocType.AssocConst,
     DocType.TraitItemMethod,
     DocType.AssocType,
     DocType.Macro]
  | DocInnerData.StructDoc _ =>
    [DocType.StructField,
     DocType.Function,
     DocType.AssocConst,
     DocType.AssocType,
     DocType.Macro]
  | DocInnerData.EnumDoc _ =>
    [DocType.Function,
     DocType.Variant]
  | _ => []

/-- `NewDocTemp_::subitems_in_category` (doc_containers.rs lines 120-132). -/
def NewDocTemp_.subitems_in_category (self : NewDocTemp_) (type_ : DocType) :
    Option String :=
  match linksGet self.links type_ with
  | some items =>
    if items.length > 0 then
      let category_str := type_.display
      let items_str := String.intercalate "\n" (items.map (fun i => i.name))
      some ("==== " ++ category_str ++ "\n" ++ items_str)
    else
      none
  | none => none

/-- `NewDocTemp_::subitems` (doc_containers.rs lines 82-118): map over the
category table, keep the `some` results, join with a blank line. -/
def NewDocTemp_.subitems (self : NewDocTemp_) : String :=
  let categories := self.subitem_categories
  String.intercalate "\n\n"
    (((categories.map (fun c => self.subitems_in_category c)).filter
        (fun c => c.isSome)).map (fun c => c.get!))

/-- A filesystem path (`PathBuf`), modelled as its list of components. -/
abbrev Path := List String

/-- `PathBuf::display`: components joined by the path separator. -/
def Path.display (p : Path) : String :=
  String.intercalate "/" p

/-- `PathBuf::strip_prefix`: removes a leading run of components, or fails
if `pre` is not a prefix of `p`. -/
def Path.strip_prefix (p pre : Path) : Option Path :=
  if pre.isPrefixOf p then some (p.drop pre.length) else none

/-- The internal root placeholder component `{{root}}`. -/
def root_placeholder : String := "\x7b\x7broot\x7d\x7d"

/-- Modelled from the spec: `ModPath::to_filepath` (module `document`, not
in src/) "converts an ordered path-segment sequence into a nested
directory path"; per spec section 4.3 "the result is computed under an
internal placeholder root" which "is always injected internally", so the
returned path is the placeholder component followed by the segments. -/
def ModPath.to_filepath (p : ModPath) : Path :=
  root_placeholder :: p.segments

/-- The body of `NewDocTemp_::to_filepath` after the `mod_path`-derived
filesystem path is in hand, factored over that path: push the filename,
then strip the `{{root}}` placeholder. `none` models the `unwrap` panic of
line 138. -/
def filepath_from (fsPath : Path) (filename : String) : Option Path :=
  let path := fsPath ++ [filename]
  path.strip_prefix [root_placeholder]

/-- `NewDocTemp_::to_filepath` (doc_containers.rs lines 134-140) up to the
final `unwrap`: `none` models the panic. -/
def NewDocTemp_.to_filepathChecked (self : NewDocTemp_) : Option Path :=
  filepath_from self.mod_path.to_filepath self.get_doc_filename

/-- `NewDocTemp_::to_filepath` as the total function the source treats it
as (the `unwrap` never fires; `to_filepathChecked_eq` below proves the
checked version always returns `some`). -/
def NewDocTemp_.to_filepath (self : NewDocTemp_) : Path :=
  self.to_filepathChecked.getD []

/-- Modelled from the spec: `CrateInfo` (module `document`, not in src/)
is opaque to this core; `save` only passes it to the store collaborator. -/
structure CrateInfo where
  data : List Nat
  deriving DecidableEq

/-- The error-chain `Error` type: either an error raised by an external
collaborator (opaque), or an error wrapped with a human-readable context
message by `chain_err`. -/
inductive Error
  | external (code : Nat)
  | context (msg : String) (cause : Error)
  deriving DecidableEq

/-- `chain_err`: wrap an error with a context message. -/
def chain_err (msg : String) (e : Error) : Error :=
  Error.context msg e

/-- The collaborator calls `save` can perform, recorded in order as a
trace so that "an error at any step returns without performing the later
steps" is an observable statement. -/
inductive Event
  | getRoot (crate_info : CrateInfo)
  | createDirAll (p : Path)
  | serializeItem (d : NewDocTemp_)
  | writeData (data : List Nat) (p : Path)
  deriving DecidableEq

/-- Modelled from the spec: the outcomes of the external collaborators
used by `save` — `store::get_crate_doc_path`, `fs::create_dir_all`,
`bincode::serialize` and `store::write_bincode_data`, none of which are in
src/. Each is modelled as a pure function from its arguments to the
outcome of the call. -/
structure StoreEnv where
  get_crate_doc_path : CrateInfo → Except Error Path
  create_dir_all : Path → Except Error Unit
  serializeResult : NewDocTemp_ → Except Error (List Nat)
  write_bincode_data : List Nat → Path → Except Error Unit

/-- `NewDocTemp_::save` (doc_containers.rs lines 142-156), paired with the
trace of collaborator calls it performed. `path.parent().unwrap()` is
`dropLast`: the unwrap never fires because the path ends with the pushed
filename and is therefore non-empty. -/
def NewDocTemp_.save (self : NewDocTemp_) (env : StoreEnv)
    (crate_info : CrateInfo) : Except Error Unit × List Event :=
  match env.get_crate_doc_path crate_info with
  | Except.error e => (Except.error e, [Event.getRoot crate_info])
  | Except.ok root =>
    let path := root ++ self.to_filepath
    let parent_path := path.dropLast
    match env.create_dir_all parent_path with
    | Except.error e =>
      (Except.error
        (chain_err ("Failed to create directory " ++ Path.display parent_path) e),
       [Event.getRoot crate_info, Event.createDirAll parent_path])
    | Except.ok _ =>
      match env.serializeResult self with
      | Except.error e =>
        (Except.error
          (chain_err ("Could not serialize doc " ++ self.mod_path.display) e),
         [Event.getRoot crate_info, Event.createDirAll parent_path,
          Event.serializeItem self])
      | Except.ok data =>
        (env.write_bincode_data data path,
         [Event.getRoot crate_info, Event.createDirAll parent_path,
          Event.serializeItem self, Event.writeData data path])

/-- The paths written to (the `store::write_bincode_data` targets) in a
`save` outcome's trace. -/
def writeTargets (r : Except Error Unit × List Event) : List Path :=
  r.2.filterMap (fun e =>
    match e with
    | Event.writeData _ p => some p
    | _ => none)

/-!
## The binary encoding

Modelled from the spec: the `bincode` encoding (external crate, not in
src/). Spec section 6 fixes only that the file content is "a stable,
self-describing binary serialization format" whose "encoding scheme itself
is an implementation choice as long as it round-trips the full structure
losslessly, including the tagged-union discriminant". It is modelled as a
token sequence: numbers stand for themselves, collections are
length-prefixed, union variants carry a numeric discriminant tag.
-/

/-- Encode a natural number as one token. -/
def encNat (n : Nat) : List Nat := [n]

/-- Decode one token. -/
def decNat : List Nat → Option (Nat × List Nat)
  | [] => none
  | n :: rest => some (n, rest)

/-- Concatenation of element encodings. -/
def encListWith (enc : α → List Nat) : List α → List Nat
  | [] => []
  | x :: xs => enc x ++ encListWith enc xs

/-- Length-prefixed list encoding. -/
def encList (enc : α → List Nat) (xs : List α) : List Nat :=
  encNat xs.length ++ encListWith enc xs

/-- Decode exactly `n` elements. -/
def decListWith (dec : List Nat → Option (α × List Nat)) :
    Nat → List Nat → Option (List α × List Nat)
  | 0, l => some ([], l)
  | Nat.succ n, l =>
    match dec l with
    | none => none
    | some (x, l1) =>
      match decListWith dec n l1 with
      | none => none
      | some (xs, l2) => some (x :: xs, l2)

/-- Decode a length-prefixed list. -/
def decList (dec : List Nat → Option (α × List Nat)) (l : List Nat) :
    Option (List α × List Nat) :=
  match decNat l with
  | none => none
  | some (n, l1) => decListWith dec n l1

/-- Encode a character as its code point. -/
def encChar (c : Char) : List Nat := [c.toNat]

/-- Decode a character. -/
def decChar (l : List Nat) : Option (Char × List Nat) :=
  match decNat l with
  | none => none
  | some (n, rest) => some (Char.ofNat n, rest)

/-- Encode a string as the length-prefixed list of its characters. -/
def encString (s : String) : List Nat := encList encChar s.data

/-- Decode a string. -/
def decString (l : List Nat) : Option (String × List Nat) :=
  match decList decChar l with
  | none => none
  | some (cs, rest) => some (String.mk cs, rest)

/-- Encode an opaque data blob. -/
def encBlob (b : List Nat) : List Nat := encList encNat b

/-- Decode an opaque data blob. -/
def decBlob (l : List Nat) : Option (List Nat × List Nat) := decList decNat l

/-- Encode a `ModPath`. -/
def encModPath (p : ModPath) : List Nat := encList encString p.segments

/-- Decode a `ModPath`. -/
def decModPath (l : List Nat) : Option (ModPath × List Nat) :=
  match decList decString l with
  | none => none
  | some (ss, rest) => some (ModPath.mk ss, rest)

/-- Encode an `Attributes` bag. -/
def encAttributes (a : Attributes) : List Nat := encBlob a.data

/-- Decode an `Attributes` bag. -/
def decAttributes (l : List Nat) : Option (Attributes × List Nat) :=
  match decBlob l with
  | none => none
  | some (b, rest) => some (Attributes.mk b, rest)

/-- Encode a `Visibility` as a discriminant tag. -/
def encVisibility (v : Visibility) : List Nat :=
  match v with
  | Visibility.Public => [0]
  | Visibility.Private => [1]
  | Visibility.Restricted => [2]

/-- Decode a `Visibility`. -/
def decVisibility (l : List Nat) : Option (Visibility × List Nat) :=
  match decNat l with
  | some (0, rest) => some (Visibility.Public, rest)
  | some (1, rest) => some (Visibility.Private, rest)
  | some (2, rest) => some (Visibility.Restricted, rest)
  | _ => none

/-- Encode an `Option Visibility` with a presence tag. -/
def encOptVisibility (v : Option Visibility) : List Nat :=
  match v with
  | none => [0]
  | some v => 1 :: encVisibility v

/-- Decode an `Option Visibility`. -/
def decOptVisibility (l : List Nat) : Option (Option Visibility × List Nat) :=
  match decNat l with
  | some (0, rest) => some (none, rest)
  | some (1, rest) =>
    match decVisibility rest with
    | none => none
    | some (v, rest) => some (some v, rest)
  | _ => none

/-- Encode a `TraitItemKind` with its sub-tag discriminant. -/
def encTraitItemKind (k : TraitItemKind) : List Nat :=
  match k with
  | TraitItemKind.Const c => 0 :: encBlob c
  | TraitItemKind.Method m => 1 :: encBlob m
  | TraitItemKind.«Type» t => 2 :: encBlob t
  | TraitItemKind.Macro m => 3 :: encBlob m

/-- Decode a `TraitItemKind`. -/
def decTraitItemKind (l : List Nat) : Option (TraitItemKind × List Nat) :=
  match decNat l with
  | some (0, rest) =>
    match decBlob rest with
    | none => none
    | some (c, rest) => some (TraitItemKind.Const c, rest)
  | some (1, rest) =>
    match decBlob rest with
    | none => none
    | some (m, rest) => some (TraitItemKind.Method m, rest)
  | some (2, rest) =>
    match decBlob rest with
    | none => none
    | some (t, rest) => some (TraitItemKind.«Type» t, rest)
  | some (3, rest) =>
    match decBlob rest with
    | none => none
    | some (m, rest) => some ( TraitItemKind.Macro m, rest)
  | _ => none

/-- Encode a `TraitItem`. -/
def encTraitItem (ti : TraitItem) : List Nat :=
  encTraitItemKind ti.node ++ encBlob ti.data

/-- Decode a `TraitItem`. -/
def decTraitItem (l : List Nat) : Option (TraitItem × List Nat) :=
  match decTraitItemKind l with
  | none => none
  | some (k, rest) =>
    match decBlob rest with
    | none => none
    | some (b, rest) => some (TraitItem.mk k b, rest)

/-- Encode a `DocInnerData` with its variant discriminant. -/
def encDocInnerData (d : DocInnerData) : List Nat :=
  match d with
  | DocInnerData.FnDoc f => 0 :: encBlob f.data
  | DocInnerData.ModuleDoc m => 1 :: encBlob m.data
  | DocInnerData.EnumDoc e => 2 :: encBlob e.data
  | DocInnerData.StructDoc s => 3 :: encBlob s.data
  | DocInnerData.ConstDoc c => 4 :: encBlob c.data
  | DocInnerData.TraitDoc t => 5 :: encBlob t.data
  | DocInnerData.TraitItemDoc item => 6 :: encTraitItem item

/-- Decode a `DocInnerData`. -/
def decDocInnerData (l : List Nat) : Option (DocInnerData × List Nat) :=
  match decNat l with
  | some (0, rest) =>
    match decBlob rest with
    | none => none
    | some (b, rest) => some (DocInnerData.FnDoc (Function.mk b), rest)
  | some (1, rest) =>
    match decBlob rest with
    | none => none
    | some (b, rest) => some (DocInnerData.ModuleDoc (Module.mk b), rest)
  | some (2, rest) =>
    match decBlob rest with
    | none => none
    | some (b, rest) => some (DocInnerData.EnumDoc (Enum.mk b), rest)
  | some (3, rest) =>
    match decBlob rest with
    | none => none
    | some (b, rest) => some (DocInnerData.StructDoc (Struct.mk b), rest)
  | some (4, rest) =>
    match decBlob rest with
    | none => none
    | some (b, rest) => some (DocInnerData.ConstDoc (Constant.mk b), rest)
  | some (5, rest) =>
    match decBlob rest with
    | none => none
    | some (b, rest) => some (DocInnerData.TraitDoc (Trait.mk b), rest)
  | some (6, rest) =>
    match decTraitItem rest with
    | none => none
    | some (item, rest) => some (DocInnerData.TraitItemDoc item, rest)
  | _ => none

/-- Encode a `DocType` as a discriminant tag. -/
def encDocType (t : DocType) : List Nat :=
  match t with
  | DocType.Function => [0]
  | DocType.Module => [1]
  | DocType.Enum => [2]
  | DocType.Variant => [3]
  | DocType.Struct => [4]
  | DocType.StructField => [5]
  | DocType.Const => [6]
  | DocType.Trait => [7]
  | DocType.AssocConst => [8]
  | DocType.TraitItemMethod => [9]
  | DocType.TraitItemConst => [10]
  | DocType.TraitItemType => [11]
  | DocType.TraitItemMacro => [12]
  | DocType.AssocType => [13]
  | DocType.Macro => [14]

/-- Decode a `DocType`. -/
def decDocType (l : List Nat) : Option (DocType × List Nat) :=
  match decNat l with
  | some (0, rest) => some (DocType.Function, rest)
  | some (1, rest) => some (DocType.Module, rest)
  | some (2, rest) => some (DocType.Enum, rest)
  | some (3, rest) => some (DocType.Variant, rest)
  | some (4, rest) => some (DocType.Struct, rest)
  | some (5, rest) => some (DocType.StructField, rest)
  | some (6, rest) => some (DocType.Const, rest)
  | some (7, rest) => some (DocType.Trait, rest)
  | some (8, rest) => some (DocType.AssocConst, rest)
  | some (9, rest) => some (DocType.TraitItemMethod, rest)
  | some (10, rest) => some (DocType.TraitItemConst, rest)
  | some (11, rest) => some (DocType.TraitItemType, rest)
  | some (12, rest) => some ( DocType.TraitItemMacro, rest)
  | some (13, rest) => some (DocType.AssocType, rest)
  | some (14, rest) => some ( DocType.Macro, rest)
  | _ => none

/-- Encode a `DocLink`. -/
def encDocLink (dl : DocLink) : List Nat :=
  encString dl.name ++ encModPath dl.path

/-- Decode a `DocLink`. -/
def decDocLink (l : List Nat) : Option (DocLink × List Nat) :=
  match decString l with
  | none => none
  | some (n, rest) =>
    match decModPath rest with
    | none => none
    | some (p, rest) => some (DocLink.mk n p, rest)

/-- Encode one entry of the `links` map. -/
def encLinksEntry (e : DocType × List DocLink) : List Nat :=
  encDocType e.1 ++ encList encDocLink e.2

/-- Decode one entry of the `links` map. -/
def decLinksEntry (l : List Nat) : Option ((DocType × List DocLink) × List Nat) :=
  match decDocType l with
  | none => none
  | some (t, rest) =>
    match decList decDocLink rest with
    | none => none
    | some (dls, rest) => some ((t, dls), rest)

/-- Encode the `links` map as its length-prefixed entry list. -/
def encLinks (m : DocRelatedItems) : List Nat := encList encLinksEntry m

/-- Decode the `links` map. -/
def decLinks (l : List Nat) : Option (DocRelatedItems × List Nat) :=
  decList decLinksEntry l

/-- Encode a whole `NewDocTemp_`, field by field. -/
def encNewDocTemp (d : NewDocTemp_) : List Nat :=
  encString d.name ++ encAttributes d.attrs ++ encModPath d.mod_path ++
    encDocInnerData d.inner_data ++ encOptVisibility d.visibility ++
    encLinks d.links

/-- Decode a whole `NewDocTemp_`. -/
def decNewDocTemp (l : List Nat) : Option (NewDocTemp_ × List Nat) :=
  match decString l with
  | none => none
  | some (n, rest) =>
    match decAttributes rest with
    | none => none
    | some (a, rest) =>
      match decModPath rest with
      | none => none
      | some (p, rest) =>
        match decDocInnerData rest with
        | none => none
        | some (inner, rest) =>
          match decOptVisibility rest with
          | none => none
          | some (v, rest) =>
            match decLinks rest with
            | none => none
            | some (ls, rest) => some (NewDocTemp_.mk n a p inner v ls, rest)

/-- `bincode::serialize(_, Infinite)`, over the modelled encoding. -/
def bincode.serialize (d : NewDocTemp_) : List Nat := encNewDocTemp d

/-- `bincode::deserialize`, over the modelled encoding: decode and require
the byte sequence to be fully consumed. -/
def bincode.deserialize (l : List Nat) : Option NewDocTemp_ :=
  match decNewDocTemp l with
  | some (d, []) => some d
  | _ => none

/-- A fully-succeeding collaborator environment: the crate doc root
resolves to the empty (root) path, directory creation and the byte write
succeed, and serialization is the modelled bincode encoding. -/
def envOk : StoreEnv where
  get_crate_doc_path := fun _ => Except.ok []
  create_dir_all := fun _ => Except.ok ()
  serializeResult := fun d => Except.ok (bincode.serialize d)
  write_bincode_data := fun _ _ => Except.ok ()

/-- The discriminant of a `DocInnerData` value: which of the seven
variants it is, ignoring the payload. -/
def DocInnerData.variantTag : DocInnerData → Nat
  | DocInnerData.FnDoc _ => 0
  | DocInnerData.ModuleDoc _ => 1
  | DocInnerData.EnumDoc _ => 2
  | DocInnerData.StructDoc _ => 3
  | DocInnerData.ConstDoc _ => 4
  | DocInnerData.TraitDoc _ => 5
  | DocInnerData.TraitItemDoc _ => 6

/-- Spec-side definition (spec section 4.2), for comparison with the
source-derived `subitem_categories`: "each DocItem kind owns a fixed,
hand-enumerated list of valid subcategories": Module, Trait, Struct and
Enum as listed, "all other kinds → empty list". -/
def specSubitemCategories (d : NewDocTemp_) : List DocType :=
  match d.inner_data with
  | DocInnerData.ModuleDoc _ =>
    [DocType.Function, DocType.Module, DocType.Enum, DocType.Struct,
     DocType.Trait, DocType.Const]
  | DocInnerData.TraitDoc _ =>
    [DocType.AssocConst, DocType.TraitItemMethod, DocType.AssocType,
     DocType.Macro]
  | DocInnerData.StructDoc _ =>
    [DocType.StructField, DocType.Function, DocType.AssocConst,
     DocType.AssocType, DocType.Macro]
  | DocInnerData.EnumDoc _ =>
    [DocType.Function, DocType.Variant]
  | _ => []

/-- Spec-side definition (spec section 4.2), for comparison with the
source-derived `subitems_in_category`: "look up the DocItem's links
mapping" with "absent key ≡ empty list"; "if present and non-empty,
render a header line (category display label) followed by one line per
link (its name), in the list's stored order; if absent or empty, omit the
category entirely". -/
def specRenderCategory (d : NewDocTemp_) (t : DocType) : Option String :=
  let items := (linksGet d.links t).getD []
  if items = [] then none
  else
    some ("==== " ++ t.display ++ "\n" ++
      String.intercalate "\n" (items.map (fun i => i.name)))

/-- Spec-side definition (spec section 4.2), for comparison with the
source-derived `subitems`: "concatenate rendered categories with a
blank-line separator, in fixed-list order". -/
def specRenderSubitems (d : NewDocTemp_) : String :=
  String.intercalate "\n\n"
    ((specSubitemCategories d).filterMap (fun t => specRenderCategory d t))

/-!
## Concrete example data

Used by counterexamples and by the witnesses of hypothesis-bearing
theorems.
-/

/-- An empty attribute bag. -/
def exAttrs : Attributes := Attributes.mk []

/-- The module path `a::b`. -/
def exModPath : ModPath := ModPath.mk ["a", "b"]

/-- A ModuleDoc item named `foo` at path `a::b`. -/
def exModule : NewDocTemp_ :=
  NewDocTemp_.mk "foo" exAttrs exModPath (DocInnerData.ModuleDoc (Module.mk []))
    none []

/-- A FnDoc item named `foo` at path `a::b`. -/
def exFn : NewDocTemp_ :=
  NewDocTemp_.mk "foo" exAttrs exModPath (DocInnerData.FnDoc (Function.mk []))
    none []

/-- A FnDoc item named `bar` at path `a::b`. -/
def exFnB : NewDocTemp_ :=
  NewDocTemp_.mk "bar" exAttrs exModPath (DocInnerData.FnDoc (Function.mk []))
    none []

/-- A FnDoc item named `foo` at path `a::b` with different attributes,
payload, visibility and links than `exFn`. -/
def exFnC : NewDocTemp_ :=
  NewDocTemp_.mk "foo" (Attributes.mk [7]) exModPath
    (DocInnerData.FnDoc (Function.mk [3])) (some Visibility.Public)
    [(DocType.Function, [DocLink.mk "g" exModPath])]

/-- A TraitItemDoc item (a trait method) named `foo` at path `a::b`. -/
def exTraitItem : NewDocTemp_ :=
  NewDocTemp_.mk "foo" exAttrs exModPath
    (DocInnerData.TraitItemDoc (TraitItem.mk (TraitItemKind.Method []) []))
    none []

/-- A crate-info value for the witnesses. -/
def exCi : CrateInfo := CrateInfo.mk []

/-- An environment whose crate-doc-root resolution fails. -/
def envFailRoot : StoreEnv where
  get_crate_doc_path := fun _ => Except.error (Error.external 0)
  create_dir_all := fun _ => Except.ok ()
  serializeResult := fun d => Except.ok (bincode.serialize d)
  write_bincode_data := fun _ _ => Except.ok ()

/-!
## Decoder/encoder round-trip lemmas
-/

theorem decNat_enc (n : Nat) (r : List Nat) : decNat (encNat n ++ r) = some (n, r) :=
  rfl

theorem decChar_enc (c : Char) (r : List Nat) :
    decChar (encChar c ++ r) = some (c, r) := by
  simp [decChar, encChar, decNat, Char.ofNat_toNat]

theorem decListWith_enc {α : Type} (dec : List Nat → Option (α × List Nat))
    (enc : α → List Nat) (H : ∀ x r, dec (enc x ++ r) = some (x, r)) :
    ∀ (xs : List α) (r : List Nat),
      decListWith dec xs.length (encListWith enc xs ++ r) = some (xs, r) := by
  intro xs
  induction xs with
  | nil => intro r; simp [encListWith, decListWith]
  | cons x xs ih =>
    intro r
    simp [encListWith, decListWith, List.append_assoc, H, ih]

theorem decList_enc {α : Type} (dec : List Nat → Option (α × List Nat))
    (enc : α → List Nat) (H : ∀ x r, dec (enc x ++ r) = some (x, r))
    (xs : List α) (r : List Nat) :
    decList dec (encList enc xs ++ r) = some (xs, r) := by
  simp [decList, encList, encNat, decNat, List.append_assoc,
    decListWith_enc dec enc H]

theorem decString_enc (s : String) (r : List Nat) :
    decString (encString s ++ r) = some (s, r) := by
  simp [decString, encString, decList_enc decChar encChar decChar_enc]

theorem decBlob_enc (b : List Nat) (r : List Nat) :
    decBlob (encBlob b ++ r) = some (b, r) := by
  simp [decBlob, encBlob, decList_enc decNat encNat (fun _ _ => rfl)]

theorem decModPath_enc (p : ModPath) (r : List Nat) :
    decModPath (encModPath p ++ r) = some (p, r) := by
  simp [decModPath, encModPath, decList_enc decString encString decString_enc]

theorem decAttributes_enc (a : Attributes) (r : List Nat) :
    decAttributes (encAttributes a ++ r) = some (a, r) := by
  simp [decAttributes, encAttributes, decBlob_enc]

theorem decVisibility_enc (v : Visibility) (r : List Nat) :
    decVisibility (encVisibility v ++ r) = some (v, r) := by
  cases v <;> rfl

theorem decOptVisibility_enc (v : Option Visibility) (r : List Nat) :
    decOptVisibility (encOptVisibility v ++ r) = some (v, r) := by
  cases v with
  | none => rfl
  | some v =>
    simp [encOptVisibility, decOptVisibility, decNat, decVisibility_enc]

theorem decTraitItemKind_enc (k : TraitItemKind) (r : List Nat) :
    decTraitItemKind (encTraitItemKind k ++ r) = some (k, r) := by
  cases k <;> simp [encTraitItemKind, decTraitItemKind, decNat, decBlob_enc]

theorem decTraitItem_enc (ti : TraitItem) (r : List Nat) :
    decTraitItem (encTraitItem ti ++ r) = some (ti, r) := by
  cases ti with
  | mk node data =>
    simp [encTraitItem, decTraitItem, List.append_assoc, decTraitItemKind_enc,
      decBlob_enc]

theorem decDocInnerData_enc (d : DocInnerData) (r : List Nat) :
    decDocInnerData (encDocInnerData d ++ r) = some (d, r) := by
  cases d <;>
    simp [encDocInnerData, decDocInnerData, decNat, decBlob_enc, decTraitItem_enc]

theorem decDocType_enc (t : DocType) (r : List Nat) :
    decDocType (encDocType t ++ r) = some (t, r) := by
  cases t <;> rfl

theorem decDocLink_enc (dl : DocLink) (r : List Nat) :
    decDocLink (encDocLink dl ++ r) = some (dl, r) := by
  cases dl with
  | mk n p =>
    simp [encDocLink, decDocLink, List.append_assoc, decString_enc, decModPath_enc]

theorem decLinksEntry_enc (e : DocType × List DocLink) (r : List Nat) :
    decLinksEntry (encLinksEntry e ++ r) = some (e, r) := by
  cases e with
  | mk t dls =>
    simp [encLinksEntry, decLinksEntry, List.append_assoc, decDocType_enc,
      decList_enc decDocLink encDocLink decDocLink_enc]

theorem decLinks_enc (m : DocRelatedItems) (r : List Nat) :
    decLinks (encLinks m ++ r) = some (m, r) := by
  simp [decLinks, encLinks, decList_enc decLinksEntry encLinksEntry decLinksEntry_enc]

theorem decNewDocTemp_enc (d : NewDocTemp_) (r : List Nat) :
    decNewDocTemp (encNewDocTemp d ++ r) = some (d, r) := by
  cases d with
  | mk n a p inner v ls =>
    simp [encNewDocTemp, decNewDocTemp, List.append_assoc, decString_enc,
      decAttributes_enc, decModPath_enc, decDocInnerData_enc,
      decOptVisibility_enc, decLinks_enc]

/-!
## Helper lemmas
-/

/-- `get_doc_filename` unfolded: prefix, then name, then the extension. -/
theorem get_doc_filename_eq (d : NewDocTemp_) :
    d.get_doc_filename = d.inner_data.get_doc_file_prefix ++ d.name ++ ".odoc" :=
  rfl

/-- The strip of the root placeholder in `to_filepath` always succeeds,
returning the module segments with the filename appended. -/
theorem to_filepathChecked_eq (d : NewDocTemp_) :
    d.to_filepathChecked = some (d.mod_path.segments ++ [d.get_doc_filename]) := by
  simp [NewDocTemp_.to_filepathChecked, filepath_from, ModPath.to_filepath,
    Path.strip_prefix, List.isPrefixOf]

/-- The total `to_filepath`, in closed form. -/
theorem to_filepath_eq (d : NewDocTemp_) :
    d.to_filepath = d.mod_path.segments ++ [d.get_doc_filename] := by
  rw [NewDocTemp_.to_filepath, to_filepathChecked_eq]
  rfl

/-- A derived doc filename always ends in `.odoc`, hence is never the
root placeholder component. -/
theorem doc_filename_ne_root (pre n : String) :
    pre ++ n ++ ".odoc" ≠ root_placeholder := by
  intro h
  have h2 := congrArg String.data h
  rw [String.data_append, String.data_append] at h2
  have h3 := congrArg List.getLast? h2
  rw [List.getLast?_append] at h3
  have e1 : List.getLast? (String.data ".odoc") = some 'c' := rfl
  have e2 : List.getLast? (String.data root_placeholder) = some '\x7d' := rfl
  rw [e1, e2] at h3
  simp at h3

/-- Equal variant discriminants give equal filename prefixes. -/
theorem variantTag_prefix_eq (a b : DocInnerData)
    (h : a.variantTag = b.variantTag) :
    a.get_doc_file_prefix = b.get_doc_file_prefix := by
  cases a <;> cases b <;>
    simp_all [DocInnerData.variantTag, DocInnerData.get_doc_file_prefix]

/-- The source's map/filter-`isSome`/`get!` pipeline is `filterMap`. -/
theorem filter_isSome_map_get {α β : Type} [Inhabited β] (f : α → Option β)
    (l : List α) :
    ((l.map f).filter (fun c => c.isSome)).map (fun c => c.get!) =
      l.filterMap f := by
  induction l with
  | nil => rfl
  | cons x xs ih => cases hx : f x <;> simp [hx, ih]

/-- Pointwise agreement of the source renderer with the spec-side one:
the source distinguishes an absent key from an empty list but renders
nothing in both cases, which is the spec's "absent key ≡ empty list". -/
theorem subitems_in_category_eq_spec (d : NewDocTemp_) (t : DocType) :
    d.subitems_in_category t = specRenderCategory d t := by
  cases h : linksGet d.links t with
  | none => simp [NewDocTemp_.subitems_in_category, specRenderCategory, h]
  | some items =>
    cases items with
    | nil => simp [NewDocTemp_.subitems_in_category, specRenderCategory, h]
    | cons i is =>
      simp [NewDocTemp_.subitems_in_category, specRenderCategory, h]

/-!
## Claim theorems
-/

/-- C1: `get_type` is a total, pure function of the `inner_data` variant —
FnDoc to Function, ModuleDoc to Module, EnumDoc to Enum, StructDoc to
Struct, ConstDoc to Const, TraitDoc to Trait — and for TraitItemDoc it
dispatches on the wrapped trait-item's sub-tag: Const to TraitItemConst,
Method to TraitItemMethod, Type to TraitItemType, Macro to TraitItemMacro;
whatever the payloads and the other fields are. Totality and the absence
of a default case are enforced by the exhaustive match of the embedding,
which mirrors the source's. -/
theorem get_type_classification :
    ∀ (n : String) (a : Attributes) (m : ModPath) (v : Option Visibility)
      (ls : DocRelatedItems),
      (∀ f, NewDocTemp_.get_type
        (NewDocTemp_.mk n a m (DocInnerData.FnDoc f) v ls) = DocType.Function)
      ∧ (∀ md, NewDocTemp_.get_type
        (NewDocTemp_.mk n a m (DocInnerData.ModuleDoc md) v ls) = DocType.Module)
      ∧ (∀ e, NewDocTemp_.get_type
        (NewDocTemp_.mk n a m (DocInnerData.EnumDoc e) v ls) = DocType.Enum)
      ∧ (∀ s, NewDocTemp_.get_type
        (NewDocTemp_.mk n a m (DocInnerData.StructDoc s) v ls) = DocType.Struct)
      ∧ (∀ c, NewDocTemp_.get_type
        (NewDocTemp_.mk n a m (DocInnerData.ConstDoc c) v ls) = DocType.Const)
      ∧ (∀ t, NewDocTemp_.get_type
        (NewDocTemp_.mk n a m (DocInnerData.TraitDoc t) v ls) = DocType.Trait)
      ∧ (∀ c b, NewDocTemp_.get_type
        (NewDocTemp_.mk n a m
          (DocInnerData.TraitItemDoc (TraitItem.mk (TraitItemKind.Const c) b))
          v ls) = DocType.TraitItemConst)
      ∧ (∀ mth b, NewDocTemp_.get_type
        (NewDocTemp_.mk n a m
          (DocInnerData.TraitItemDoc (TraitItem.mk (TraitItemKind.Method mth) b))
          v ls) = DocType.TraitItemMethod)
      ∧ (∀ ty b, NewDocTemp_.get_type
        (NewDocTemp_.mk n a m
          (DocInnerData.TraitItemDoc (TraitItem.mk (TraitItemKind.«Type» ty) b))
          v ls) = DocType.TraitItemType)
      ∧ (∀ mc b, NewDocTemp_.get_type
        (NewDocTemp_.mk n a m
          (DocInnerData.TraitItemDoc (TraitItem.mk ( TraitItemKind.Macro mc) b))
          v ls) = DocType.TraitItemMacro) :=
  fun _ _ _ _ _ =>
    ⟨fun _ => rfl, fun _ => rfl, fun _ => rfl, fun _ => rfl, fun _ => rfl,
     fun _ => rfl, fun _ _ => rfl, fun _ _ => rfl, fun _ _ => rfl,
     fun _ _ => rfl⟩

/-- C2: every DocItem's derived filename is `<prefix><name>.odoc`, and the
prefix is fully determined by the `inner_data` variant: "mdesc-" for
ModuleDoc, "edesc-" for EnumDoc, "sdesc-" for StructDoc, "cdesc-" for
ConstDoc, "tdesc-" for TraitDoc, and the empty prefix for FnDoc and
TraitItemDoc. -/
theorem get_doc_filename_spec :
    (∀ d : NewDocTemp_,
      d.get_doc_filename = d.inner_data.get_doc_file_prefix ++ d.name ++ ".odoc")
    ∧ (∀ md, DocInnerData.get_doc_file_prefix (DocInnerData.ModuleDoc md) = "mdesc-")
    ∧ (∀ e, DocInnerData.get_doc_file_prefix (DocInnerData.EnumDoc e) = "edesc-")
    ∧ (∀ s, DocInnerData.get_doc_file_prefix (DocInnerData.StructDoc s) = "sdesc-")
    ∧ (∀ c, DocInnerData.get_doc_file_prefix (DocInnerData.ConstDoc c) = "cdesc-")
    ∧ (∀ t, DocInnerData.get_doc_file_prefix (DocInnerData.TraitDoc t) = "tdesc-")
    ∧ (∀ f, DocInnerData.get_doc_file_prefix (DocInnerData.FnDoc f) = "")
    ∧ (∀ ti, DocInnerData.get_doc_file_prefix (DocInnerData.TraitItemDoc ti) = "") :=
  ⟨fun _ => rfl, fun _ => rfl, fun _ => rfl, fun _ => rfl, fun _ => rfl,
   fun _ => rfl, fun _ => rfl, fun _ => rfl⟩

/-- C3: `to_filepath` returns the filesystem path of `mod_path` with the
filename `<prefix><name>.odoc` appended and the leading root placeholder
stripped. Provided no module segment is itself the placeholder component
(segments are source-language identifiers; the placeholder is injected
only internally), the output never contains the placeholder. -/
theorem to_filepath_strips_root (d : NewDocTemp_)
    (h : root_placeholder ∉ d.mod_path.segments) :
    d.to_filepath = d.mod_path.segments ++ [d.get_doc_filename]
    ∧ root_placeholder ∉ d.to_filepath := by
  refine ⟨to_filepath_eq d, ?_⟩
  rw [to_filepath_eq]
  intro hmem
  rcases List.mem_append.mp hmem with hs | hf
  · exact h hs
  · have hq : root_placeholder = d.get_doc_filename := List.mem_singleton.mp hf
    have h2 : d.inner_data.get_doc_file_prefix ++ d.name ++ ".odoc" =
        root_placeholder := by
      rw [← get_doc_filename_eq]
      exact hq.symm
    exact doc_filename_ne_root d.inner_data.get_doc_file_prefix d.name h2

/-- Witness for C3 at the ModuleDoc item `foo` at path `a::b`. -/
theorem to_filepath_strips_root_witness :
    root_placeholder ∉ exModule.mod_path.segments
    ∧ (exModule.to_filepath =
        exModule.mod_path.segments ++ [exModule.get_doc_filename]
       ∧ root_placeholder ∉ exModule.to_filepath) :=
  ⟨by decide, to_filepath_strips_root exModule (by decide)⟩

/-- C4: if the filesystem path derived from the module path does not begin
with the root placeholder, the strip step of `to_filepath` yields no value
(`none` models the assertion-style `unwrap` panic — no result, no
recoverable error); and for every DocItem the placeholder is present,
because `ModPath::to_filepath` always injects it, so the failing branch is
unreachable. -/
theorem to_filepath_missing_root_aborts :
    (∀ (fsPath : Path) (filename : String),
        ¬ [root_placeholder] <+: fsPath ++ [filename] →
        filepath_from fsPath filename = none)
    ∧ ∀ (d : NewDocTemp_), ∃ p, d.to_filepathChecked = some p := by
  constructor
  · intro fsPath filename h
    have hb : ¬ List.isPrefixOf [root_placeholder] (fsPath ++ [filename]) = true := by
      rw [List.isPrefixOf_iff_prefix]
      exact h
    simp [filepath_from, Path.strip_prefix, hb]
  · intro d
    exact ⟨_, to_filepathChecked_eq d⟩

/-- Witness for C4: a path not rooted at the placeholder makes the strip
abort, and the FnDoc item `foo` at `a::b` reaches the success branch. -/
theorem to_filepath_missing_root_aborts_witness :
    (¬ [root_placeholder] <+: ["x"] ++ ["y"])
    ∧ filepath_from ["x"] "y" = none
    ∧ ∃ p, exFn.to_filepathChecked = some p :=
  ⟨by decide, to_filepath_missing_root_aborts.1 ["x"] "y" (by decide),
   to_filepath_missing_root_aborts.2 exFn⟩

/-- C5: the subitem category table is fixed by the `inner_data` variant:
ModuleDoc gives [Function, Module, Enum, Struct, Trait, Const]; TraitDoc
gives [AssocConst, TraitItemMethod, AssocType, Macro]; StructDoc gives
[StructField, Function, AssocConst, AssocType, Macro]; EnumDoc gives
[Function, Variant]; FnDoc, ConstDoc and TraitItemDoc give the empty list
and render no subitems. -/
theorem subitem_categories_fixed :
    ∀ (n : String) (a : Attributes) (m : ModPath) (v : Option Visibility)
      (ls : DocRelatedItems),
      (∀ md, NewDocTemp_.subitem_categories
        (NewDocTemp_.mk n a m (DocInnerData.ModuleDoc md) v ls) =
          [DocType.Function, DocType.Module, DocType.Enum, DocType.Struct,
           DocType.Trait, DocType.Const])
      ∧ (∀ t, NewDocTemp_.subitem_categories
        (NewDocTemp_.mk n a m (DocInnerData.TraitDoc t) v ls) =
          [DocType.AssocConst, DocType.TraitItemMethod, DocType.AssocType,
           DocType.Macro])
      ∧ (∀ s, NewDocTemp_.subitem_categories
        (NewDocTemp_.mk n a m (DocInnerData.StructDoc s) v ls) =
          [DocType.StructField, DocType.Function, DocType.AssocConst,
           DocType.AssocType, DocType.Macro])
      ∧ (∀ e, NewDocTemp_.subitem_categories
        (NewDocTemp_.mk n a m (DocInnerData.EnumDoc e) v ls) =
          [DocType.Function, DocType.Variant])
      ∧ (∀ f, NewDocTemp_.subitem_categories
        (NewDocTemp_.mk n a m (DocInnerData.FnDoc f) v ls) = [])
      ∧ (∀ c, NewDocTemp_.subitem_categories
        (NewDocTemp_.mk n a m (DocInnerData.ConstDoc c) v ls) = [])
      ∧ (∀ ti, NewDocTemp_.subitem_categories
        (NewDocTemp_.mk n a m (DocInnerData.TraitItemDoc ti) v ls) = [])
      ∧ (∀ f, NewDocTemp_.subitems
        (NewDocTemp_.mk n a m (DocInnerData.FnDoc f) v ls) = "")
      ∧ (∀ c, NewDocTemp_.subitems
        (NewDocTemp_.mk n a m (DocInnerData.ConstDoc c) v ls) = "")
      ∧ (∀ ti, NewDocTemp_.subitems
        (NewDocTemp_.mk n a m (DocInnerData.TraitItemDoc ti) v ls) = "") :=
  fun _ _ _ _ _ =>
    ⟨fun _ => rfl, fun _ => rfl, fun _ => rfl, fun _ => rfl, fun _ => rfl,
     fun _ => rfl, fun _ => rfl, fun _ => rfl, fun _ => rfl, fun _ => rfl⟩

/-- C6: for every DocItem the subitem renderer agrees with the spec's
rendering rule: a category of the kind's fixed list is rendered exactly
when its link list is present and non-empty, as a header line bearing the
category's display label followed by one line per link name in stored
order; absent-key and empty-list categories are omitted entirely, and the
rendered categories are joined by a blank line in fixed-list order. -/
theorem subitems_eq_spec_rendering (d : NewDocTemp_) :
    d.subitems = specRenderSubitems d := by
  show String.intercalate "\n\n"
      (((d.subitem_categories.map (fun c => d.subitems_in_category c)).filter
          (fun c => c.isSome)).map (fun c => c.get!)) = _
  rw [filter_isSome_map_get]
  unfold specRenderSubitems
  have hc : specSubitemCategories d = d.subitem_categories := rfl
  rw [hc]
  simp only [subitems_in_category_eq_spec]

/-- C7: `save` resolves the crate doc root (propagating a resolution
failure), computes the output path as root plus `to_filepath`, creates the
parent directories (an I/O failure is wrapped with the directory path in
context), serializes the item (a failure is wrapped with the item's module
path in context), then writes the bytes via the store (whose result is
propagated unchanged); the recorded traces show that an error at any step
skips all later collaborator calls. -/
theorem save_steps (env : StoreEnv) (d : NewDocTemp_) (ci : CrateInfo) :
    (∀ e, env.get_crate_doc_path ci = Except.error e →
      d.save env ci = (Except.error e, [Event.getRoot ci]))
    ∧ (∀ root e, env.get_crate_doc_path ci = Except.ok root →
        env.create_dir_all (root ++ d.to_filepath).dropLast = Except.error e →
        d.save env ci =
          (Except.error (chain_err
            ("Failed to create directory " ++
              Path.display (root ++ d.to_filepath).dropLast) e),
           [Event.getRoot ci,
            Event.createDirAll (root ++ d.to_filepath).dropLast]))
    ∧ (∀ root e, env.get_crate_doc_path ci = Except.ok root →
        env.create_dir_all (root ++ d.to_filepath).dropLast = Except.ok () →
        env.serializeResult d = Except.error e →
        d.save env ci =
          (Except.error (chain_err
            ("Could not serialize doc " ++ d.mod_path.display) e),
           [Event.getRoot ci,
            Event.createDirAll (root ++ d.to_filepath).dropLast,
            Event.serializeItem d]))
    ∧ (∀ root data, env.get_crate_doc_path ci = Except.ok root →
        env.create_dir_all (root ++ d.to_filepath).dropLast = Except.ok () →
        env.serializeResult d = Except.ok data →
        d.save env ci =
          (env.write_bincode_data data (root ++ d.to_filepath),
           [Event.getRoot ci,
            Event.createDirAll (root ++ d.to_filepath).dropLast,
            Event.serializeItem d,
            Event.writeData data (root ++ d.to_filepath)])) := by
  refine ⟨?_, ?_, ?_, ?_⟩
  · intro e h
    simp [NewDocTemp_.save, h]
  · intro root e h1 h2
    simp [NewDocTemp_.save, h1, h2]
  · intro root e h1 h2 h3
    simp [NewDocTemp_.save, h1, h2, h3]
  · intro root data h1 h2 h3
    simp [NewDocTemp_.save, h1, h2, h3]

/-- Witness for C7: a failing root resolution stops after the resolution
call; a fully successful environment performs all four steps in order on
the FnDoc item `foo` at `a::b`. -/
theorem save_steps_witness :
    exFn.save envFailRoot exCi =
      (Except.error (Error.external 0), [Event.getRoot exCi])
    ∧ exFn.save envOk exCi =
      (Except.ok (),
       [Event.getRoot exCi, Event.createDirAll ["a", "b"],
        Event.serializeItem exFn,
        Event.writeData (bincode.serialize exFn) ["a", "b", "foo.odoc"]]) :=
  ⟨(save_steps envFailRoot exFn exCi).1 (Error.external 0) rfl,
   (save_steps envOk exFn exCi).2.2.2 [] (bincode.serialize exFn) rfl rfl rfl⟩

/-- C8, counterexample: the claim "equal `mod_path` and equal `inner_data`
variant give an equal persisted path" is false — the name also determines
the path. Two FnDoc items at `a::b` named `foo` and `bar` differ. -/
theorem to_filepath_not_kind_determined :
    ¬ (∀ (d1 d2 : NewDocTemp_),
        d1.mod_path = d2.mod_path →
        d1.inner_data.variantTag = d2.inner_data.variantTag →
        d1.to_filepath = d2.to_filepath) := by
  intro h
  have hc := h exFn exFnB rfl rfl
  exact absurd hc (by decide)

/-- C8, amended: the persisted path is determined by the module hierarchy,
the item's name and its kind — equal `mod_path`, equal `name` and equal
`inner_data` variant give equal `to_filepath` (hence the same `save`
target), independently of attributes, payload contents, visibility and
links. -/
theorem to_filepath_determined_by_path_name_kind
    (d1 d2 : NewDocTemp_) (hm : d1.mod_path = d2.mod_path)
    (hn : d1.name = d2.name)
    (hk : d1.inner_data.variantTag = d2.inner_data.variantTag) :
    d1.to_filepath = d2.to_filepath := by
  rw [to_filepath_eq, to_filepath_eq, hm]
  have hfn : d1.get_doc_filename = d2.get_doc_filename := by
    rw [get_doc_filename_eq, get_doc_filename_eq, hn, variantTag_prefix_eq _ _ hk]
  rw [hfn]

/-- Witness for the amended C8: two FnDoc items named `foo` at `a::b` that
differ in attributes, payload, visibility and links share their path. -/
theorem to_filepath_determined_witness :
    exFn.mod_path = exFnC.mod_path ∧ exFn.name = exFnC.name
    ∧ exFn.inner_data.variantTag = exFnC.inner_data.variantTag
    ∧ exFn.to_filepath = exFnC.to_filepath :=
  ⟨rfl, rfl, rfl, to_filepath_determined_by_path_name_kind exFn exFnC rfl rfl rfl⟩

/-- C9: serializing any DocItem — every `DocInnerData` variant, any links
map, empty or populated — and deserializing the bytes yields a value equal
to the original, tagged-union discriminants included. -/
theorem serialize_deserialize_roundtrip (d : NewDocTemp_) :
    bincode.deserialize (bincode.serialize d) = some d := by
  have h := decNewDocTemp_enc d []
  rw [List.append_nil] at h
  simp [bincode.serialize, bincode.deserialize, h]

/-- C10: because FnDoc and TraitItemDoc share the empty filename prefix, a
FnDoc item and a TraitItemDoc item with the same name and module path
derive the identical file path, and saving each of them targets that same
file (the overwrite on the second write is the filesystem semantics of the
external store collaborator). -/
theorem fn_trait_item_filepath_collision :
    ∃ (d1 d2 : NewDocTemp_) (p : Path),
      (∃ f, d1.inner_data = DocInnerData.FnDoc f)
      ∧ (∃ ti, d2.inner_data = DocInnerData.TraitItemDoc ti)
      ∧ d1.name = d2.name ∧ d1.mod_path = d2.mod_path ∧ d1 ≠ d2
      ∧ d1.to_filepath = p ∧ d2.to_filepath = p
      ∧ writeTargets (d1.save envOk exCi) = [p]
      ∧ writeTargets (d2.save envOk exCi) = [p] := by
  refine ⟨exFn, exTraitItem, ["a", "b", "foo.odoc"],
    ⟨Function.mk [], rfl⟩, ⟨TraitItem.mk (TraitItemKind.Method []) [], rfl⟩,
    rfl, rfl, by decide, by decide, by decide, by decide, by decide⟩

end Oxidoc
